import Mathlib

/-!
Shallow embedding of the ShackMate RS-BA1 stream multiplexer
(`sm-control.py`).  Byte strings are modelled as `List Nat`, one
element per byte.  `struct.pack_into` writes are modelled either by
`setSlice` (overwrite a region of an existing buffer, exactly as
`pack_into` does) or, for frames that are built once left to right
with no overlapping writes, by concatenation in source order with the
offsets noted in comments.  Network transmission is modelled by
returning the list of frames that the corresponding Python coroutine
passes to `_send`; sockets, timers and logging have no observable
byte-level effect and are dropped.
-/

namespace SM

/-- Little-endian 16-bit encoding, as written by `struct.pack("<H")`. -/
def le16 (v : Nat) : List Nat := [v % 256, v / 256 % 256]

/-- Big-endian 16-bit encoding, as written by `struct.pack(">H")` or
`int.to_bytes(2, "big")`. -/
def be16 (v : Nat) : List Nat := [v / 256 % 256, v % 256]

/-- Little-endian 32-bit encoding, as written by `struct.pack("<I")`. -/
def le32 (v : Nat) : List Nat :=
  [v % 256, v / 256 % 256, v / 65536 % 256, v / 16777216 % 256]

/-- Big-endian 32-bit encoding, as written by `struct.pack(">I")`. -/
def be32 (v : Nat) : List Nat :=
  [v / 16777216 % 256, v / 65536 % 256, v / 256 % 256, v % 256]

/-- Byte at index `i` of a byte string (0 when out of range). -/
def byteAt : List Nat → Nat → Nat
  | [], _ => 0
  | b :: _, 0 => b
  | _ :: l, n + 1 => byteAt l n

/-- `struct.unpack("<H", data[i:i+2])`: little-endian 16-bit read. -/
def getLE16 (l : List Nat) (i : Nat) : Nat :=
  byteAt l i + 256 * byteAt l (i + 1)

/-- Python slice `l[a:b]` of a byte string. -/
def sliceL (l : List Nat) (a b : Nat) : List Nat :=
  (l.drop a).take (b - a)

/-- Overwrite the region starting at `off` of `l` with `r`, as
`struct.pack_into` / slice assignment do on a `bytearray`. -/
def setSlice (l : List Nat) (off : Nat) (r : List Nat) : List Nat :=
  l.take off ++ r ++ l.drop (off + r.length)

/-- The W6EL passcode substitution table (`PASSCODE_SEQUENCE` in the
source), keys 32..126, reproduced byte for byte; `none` for any other
key, matching a missing dict key. -/
def PASSCODE_SEQUENCE (k : Nat) : Option Nat :=
  match k with
  | 32 => some 0x47 | 33 => some 0x5d | 34 => some 0x4c | 35 => some 0x42
  | 36 => some 0x66 | 37 => some 0x20 | 38 => some 0x23 | 39 => some 0x46
  | 40 => some 0x4e | 41 => some 0x57 | 42 => some 0x45 | 43 => some 0x3d
  | 44 => some 0x67 | 45 => some 0x76 | 46 => some 0x60 | 47 => some 0x41
  | 48 => some 0x62 | 49 => some 0x39 | 50 => some 0x59 | 51 => some 0x2d
  | 52 => some 0x68 | 53 => some 0x7e | 54 => some 0x7c | 55 => some 0x65
  | 56 => some 0x7d | 57 => some 0x49 | 58 => some 0x29 | 59 => some 0x72
  | 60 => some 0x73 | 61 => some 0x78 | 62 => some 0x21 | 63 => some 0x6e
  | 64 => some 0x5a | 65 => some 0x5e | 66 => some 0x4a | 67 => some 0x3e
  | 68 => some 0x71 | 69 => some 0x2c | 70 => some 0x2a | 71 => some 0x54
  | 72 => some 0x3c | 73 => some 0x3a | 74 => some 0x63 | 75 => some 0x4f
  | 76 => some 0x43 | 77 => some 0x75 | 78 => some 0x27 | 79 => some 0x79
  | 80 => some 0x5b | 81 => some 0x35 | 82 => some 0x70 | 83 => some 0x48
  | 84 => some 0x6b | 85 => some 0x56 | 86 => some 0x6f | 87 => some 0x34
  | 88 => some 0x32 | 89 => some 0x6c | 90 => some 0x30 | 91 => some 0x61
  | 92 => some 0x6d | 93 => some 0x7b | 94 => some 0x2f | 95 => some 0x4b
  | 96 => some 0x64 | 97 => some 0x38 | 98 => some 0x2b | 99 => some 0x2e
  | 100 => some 0x50 | 101 => some 0x40 | 102 => some 0x3f | 103 => some 0x55
  | 104 => some 0x33 | 105 => some 0x37 | 106 => some 0x25 | 107 => some 0x77
  | 108 => some 0x24 | 109 => some 0x26 | 110 => some 0x74 | 111 => some 0x6a
  | 112 => some 0x28 | 113 => some 0x53 | 114 => some 0x4d | 115 => some 0x69
  | 116 => some 0x22 | 117 => some 0x5c | 118 => some 0x44 | 119 => some 0x31
  | 120 => some 0x36 | 121 => some 0x58 | 122 => some 0x3b | 123 => some 0x7a
  | 124 => some 0x51 | 125 => some 0x5f | 126 => some 0x52
  | _ => none

/-- The index adjustment in `passcode`: `p = ord(s[i]) + i`, folded by
`if p > 126: p = 32 + p % 127`. -/
def pcAdjust (p : Nat) : Nat :=
  if p > 126 then 32 + p % 127 else p

/-- `passcode(s)` from the source: a 16-byte result; byte `i` for
`i < min(len(s), 16)` is `PASSCODE_SEQUENCE.get(p, 0)` for the adjusted
code `p`, and 0 past the end of the input.  Python `ord` is the Unicode
code point, i.e. `Char.toNat`. -/
def passcode (s : String) : List Nat :=
  (List.range 16).map fun i =>
    match s.data.get? i with
    | some c => (PASSCODE_SEQUENCE (pcAdjust (c.toNat + i))).getD 0
    | none => 0

/-- The per-port state of `StreamCommon` that the wire format depends
on: the two session IDs and the `got_remote_sid` flag. -/
structure Endpoint where
  local_sid : Nat
  remote_sid : Nat
  got_remote_sid : Bool
deriving DecidableEq

/-- State of `Pkt0Handler`: the outer send sequence (starts at 1) and
the retransmit buffer `tx_seq_buf`, a dict from sequence number to the
exact bytes sent under that number. -/
structure Pkt0State where
  send_seq : Nat
  tx_seq_buf : AList (fun _ : Nat => List Nat)

/-- `Pkt0Handler.__init__`. -/
def pkt0Init : Pkt0State := ⟨1, ∅⟩

/-- `Pkt0Handler.send_tracked_packet`: write the current send-seq
little-endian at offset 6, store the resulting bytes in `tx_seq_buf`
under that seq, transmit, and advance the seq mod 2^16.  Returns the
new handler state and the frame given to `_send`. -/
def send_tracked_packet (st : Pkt0State) (data : List Nat) : Pkt0State × List Nat :=
  let d := setSlice data 6 (le16 st.send_seq)
  (⟨(st.send_seq + 1) % 65536, st.tx_seq_buf.insert st.send_seq d⟩, d)

/-- The 16-byte idle frame built by `Pkt0Handler._send_idle`:
`pack_into("<IHHH", pkt, 0, 0x10, 0, 0, 0)` (the fourth field lands at
offset 8 and is then overwritten by the session IDs), the requested seq
at offset 6 when untracked, and the session IDs big-endian at 8 and 12. -/
def mkIdlePkt (ep : Endpoint) (tracked : Bool) (seqIfUntracked : Nat) : List Nat :=
  let pkt := List.replicate 16 0
  let pkt := setSlice pkt 0 (le32 0x10 ++ le16 0 ++ le16 0 ++ le16 0)
  let pkt := if tracked then pkt else setSlice pkt 6 (le16 seqIfUntracked)
  setSlice pkt 8 (be32 ep.local_sid ++ be32 ep.remote_sid)

/-- `Pkt0Handler.is_idle_pkt0`. -/
def is_idle_pkt0 (data : List Nat) : Bool :=
  data.length == 16 && sliceL data 0 6 == [0x10, 0, 0, 0, 0, 0]

/-- `Pkt0Handler.is_pkt0`. -/
def is_pkt0 (data : List Nat) : Bool :=
  16 ≤ data.length &&
    (is_idle_pkt0 data ||
     sliceL data 0 6 == [0x10, 0, 0, 0, 0x01, 0] ||
     sliceL data 0 6 == [0x18, 0, 0, 0, 0x01, 0])

/-- `Pkt0Handler.handle`: only single-seq retransmit requests
(`10 00 00 00 01 00`) get an action.  If the buffer holds a non-empty
entry for the requested seq (`if stored_data:` — Python truthiness) the
stored bytes are resent twice; otherwise two untracked idle frames
carrying the requested seq are sent.  The handler state is not
modified on any path, so only the transmitted frames are returned. -/
def pkt0_handle (st : Pkt0State) (ep : Endpoint) (data : List Nat) : List (List Nat) :=
  if data.length < 16 then []
  else if sliceL data 0 6 = [0x10, 0, 0, 0, 0x01, 0] then
    match st.tx_seq_buf.lookup (getLE16 data 6) with
    | some stored =>
        if stored = [] then
          [mkIdlePkt ep false (getLE16 data 6), mkIdlePkt ep false (getLE16 data 6)]
        else [stored, stored]
    | none =>
        [mkIdlePkt ep false (getLE16 data 6), mkIdlePkt ep false (getLE16 data 6)]
  else []

/-- A run of `send_tracked_packet` calls, used to describe the
reachable states of a `Pkt0Handler`. -/
def runTracked (st : Pkt0State) (ds : List (List Nat)) : Pkt0State :=
  ds.foldl (fun acc d => (send_tracked_packet acc d).1) st

/-- State of `Pkt7Handler`. -/
structure Pkt7State where
  send_seq : Nat
  inner_send_seq : Nat
  running : Bool
deriving DecidableEq

/-- `Pkt7Handler.__init__`. -/
def pkt7Init : Pkt7State := ⟨2, 0x8304, false⟩

/-- `Pkt7Handler.is_pkt7`. -/
def pkt7_is (data : List Nat) : Bool :=
  data.length == 21 && sliceL data 1 6 == [0, 0, 0, 0x07, 0]

/-- The 21-byte reply frame built by `Pkt7Handler._send_reply`, laid
out in source order: byte 0 = 0x15, bytes 1..4 = 0, type 7 LE at 4,
the received seq LE at 6, session IDs BE at 8 and 12, 0x01 (reply
flag) at 16, the echoed reply-id at 17..21. -/
def mkPkt7Reply (ep : Endpoint) (replyId : List Nat) (sq : Nat) : List Nat :=
  [0x15] ++ [0, 0, 0] ++ le16 0x07 ++ le16 sq ++
    be32 ep.local_sid ++ be32 ep.remote_sid ++ [0x01] ++ replyId

/-- `Pkt7Handler.handle`: a frame with 0x00 at offset 16 is a request
from the peer and is answered — but only when `self.running` is set —
by echoing bytes 17..21 with the received seq.  Frames with a non-zero
byte 16 are replies and produce no output. -/
def pkt7_handle (st : Pkt7State) (ep : Endpoint) (data : List Nat) : List (List Nat) :=
  if byteAt data 16 = 0 then
    if st.running then [mkPkt7Reply ep (sliceL data 17 21) (getLE16 data 6)] else []
  else []

/-- `Pkt7Handler._send`: build the fresh 4-byte reply-id (random byte,
`inner_send_seq` LE, 0x06), then the 21-byte request frame with 0x00
(request flag) at offset 16 and the current pkt7 send-seq at offset 6;
advance both counters.  `rand` stands for `random.randint(0, 255)`. -/
def pkt7_send (st : Pkt7State) (ep : Endpoint) (rand : Nat) : Pkt7State × List Nat :=
  let replyId := [rand, st.inner_send_seq % 256, st.inner_send_seq / 256 % 256, 0x06]
  let pkt := [0x15] ++ [0, 0, 0] ++ le16 0x07 ++ le16 st.send_seq ++
    be32 ep.local_sid ++ be32 ep.remote_sid ++ [0x00] ++ replyId
  (⟨(st.send_seq + 1) % 65536, st.inner_send_seq + 1, st.running⟩, pkt)

/-- One iteration of `Pkt7Handler._periodic_send_loop` (one
`PKT7_SEND_INTERVAL` timer tick): after the sleep, send one request if
and only if `self.running` is still set. -/
def pkt7_tick (st : Pkt7State) (ep : Endpoint) (rand : Nat) : Pkt7State × List (List Nat) :=
  if st.running then
    let res := pkt7_send st ep rand
    (res.1, [res.2])
  else (st, [])

/-- `StreamCommon.send_disconnect`: nothing is sent unless
`got_remote_sid`; otherwise the 16-byte frame built by
`pack_into("<IHHH", pkt, 0, 0x10, 0, 0, 0x05)` followed by
`pack_into(">II", pkt, 8, local_sid, remote_sid)` is sent twice.
(Note that `"<IHHH"` places the fourth field 0x05 at offset 8, where
the session IDs then overwrite it.) -/
def send_disconnect (ep : Endpoint) : List (List Nat) :=
  if ep.got_remote_sid = false then []
  else
    let pkt := List.replicate 16 0
    let pkt := setSlice pkt 0 (le32 0x10 ++ le16 0 ++ le16 0 ++ le16 0x05)
    let pkt := setSlice pkt 8 (be32 ep.local_sid ++ be32 ep.remote_sid)
    [pkt, pkt]

/-- State of `ControlStream` relevant to the control dialogue: the
control endpoint (`self.common`), its pkt0/pkt7 handlers, the
credentials and the authentication flags. -/
structure CtrlState where
  ep : Endpoint
  pkt0 : Pkt0State
  pkt7 : Pkt7State
  username : String
  password : String
  auth_inner_send_seq : Nat
  auth_id : List Nat
  got_auth_id : Bool
  auth_ok : Bool
  a8_reply_id : List Nat
  got_a8_reply_id : Bool
  serial_and_audio_stream_opened : Bool

/-- The 128-byte login frame of `ControlStream._send_pkt_login`, in
source order (offset 6 is filled in later by the tracked sender):
length 128 LE32 at 0; session IDs BE32 at 8 and 12; magic
`00 00 00 70` at 16..20; 0x01 at 20; inner seq LE16 at 23; the random
2-byte auth start id (big-endian, `to_bytes(2, "big")`) at 25..27;
`passcode(username)` at 64..80; `passcode(password)` at 80..96; the
device name `icom-pc` NUL-padded at 96..112. -/
def mkLoginPkt (st : CtrlState) (authStartId : Nat) : List Nat :=
  le32 128 ++ [0, 0, 0, 0] ++
    be32 st.ep.local_sid ++ be32 st.ep.remote_sid ++
    [0x00, 0x00, 0x00, 0x70] ++ [0x01] ++ [0, 0] ++
    le16 st.auth_inner_send_seq ++ be16 authStartId ++
    List.replicate 37 0 ++
    passcode st.username ++ passcode st.password ++
    ([0x69, 0x63, 0x6f, 0x6d, 0x2d, 0x70, 0x63, 0x00] ++ List.replicate 8 0) ++
    List.replicate 16 0

/-- `ControlStream._send_pkt_login`: send the login frame tracked and
bump the auth inner seq. -/
def send_pkt_login (st : CtrlState) (authStartId : Nat) : CtrlState × List Nat :=
  let res := send_tracked_packet st.pkt0 (mkLoginPkt st authStartId)
  ({ st with pkt0 := res.1, auth_inner_send_seq := st.auth_inner_send_seq + 1 }, res.2)

/-- The 64-byte auth frame of `ControlStream._send_pkt_auth`: length
64 LE32 at 0; session IDs at 8 and 12; magic `00 00 00 30` at 16..20;
0x01 at 20; the auth magic (0x02 / 0x05 / 0x01) at 21; inner seq LE16
at 23; `auth_id` at 25..31. -/
def mkAuthPkt (st : CtrlState) (magic : Nat) : List Nat :=
  le32 64 ++ [0, 0, 0, 0] ++
    be32 st.ep.local_sid ++ be32 st.ep.remote_sid ++
    [0x00, 0x00, 0x00, 0x30] ++ [0x01] ++ [magic] ++ [0] ++
    le16 st.auth_inner_send_seq ++ st.auth_id ++
    List.replicate 33 0

/-- `ControlStream._send_pkt_auth`: send the auth frame tracked and
bump the auth inner seq. -/
def send_pkt_auth (st : CtrlState) (magic : Nat) : CtrlState × List Nat :=
  let res := send_tracked_packet st.pkt0 (mkAuthPkt st magic)
  ({ st with pkt0 := res.1, auth_inner_send_seq := st.auth_inner_send_seq + 1 }, res.2)

/-- The 144-byte serial/audio provisioning request of
`ControlStream._send_request_serial_and_audio`: length 144 LE32 at 0;
session IDs at 8 and 12; magic `00 00 00 80` at 16..20; 0x01 at 20;
0x03 at 21; inner seq LE16 at 23; `auth_id` at 25..31; `a8_reply_id`
at 31..47; serial port 50002 and audio port 50003 BE16 at 80 and 82;
`passcode(username)` at 96..112; audio format `01 01 04 04` at
112..116. -/
def mkSerialAudioReq (st : CtrlState) : List Nat :=
  le32 144 ++ [0, 0, 0, 0] ++
    be32 st.ep.local_sid ++ be32 st.ep.remote_sid ++
    [0x00, 0x00, 0x00, 0x80] ++ [0x01] ++ [0x03] ++ [0] ++
    le16 st.auth_inner_send_seq ++ st.auth_id ++ st.a8_reply_id ++
    List.replicate 33 0 ++
    be16 50002 ++ be16 50003 ++
    List.replicate 12 0 ++
    passcode st.username ++ [0x01, 0x01, 0x04, 0x04] ++
    List.replicate 28 0

/-- `ControlStream._send_request_serial_and_audio`. -/
def send_request_serial_and_audio (st : CtrlState) : CtrlState × List Nat :=
  let res := send_tracked_packet st.pkt0 (mkSerialAudioReq st)
  ({ st with pkt0 := res.1, auth_inner_send_seq := st.auth_inner_send_seq + 1 }, res.2)

/-- `ControlStream._send_request_serial_and_audio_if_possible`: emit
the provisioning request iff the streams are not yet opened and both
`auth_ok` and `got_a8_reply_id` are set. -/
def send_request_serial_and_audio_if_possible (st : CtrlState) :
    CtrlState × List (List Nat) :=
  if !st.serial_and_audio_stream_opened && st.auth_ok && st.got_a8_reply_id then
    let res := send_request_serial_and_audio st
    (res.1, [res.2])
  else (st, [])

/-- `ControlStream._handle_read`: dispatch one inbound control frame.
A 64-byte auth answer with 0x05 at offset 21 sets `auth_ok`; an
80-byte a8 answer copies bytes 32..48 into `a8_reply_id` and sets
`got_a8_reply_id`; both then try to emit the provisioning request.  A
144-byte provisioning answer with byte 96 = 1 marks the streams opened
(the `serial.init()` / `audio.init()` calls act on the other two
endpoints and are abstracted into that flag; the device-name
extraction only feeds a log line).  Anything else is ignored. -/
def handle_read (st : CtrlState) (response : List Nat) : CtrlState × List (List Nat) :=
  if response.length = 64 ∧ sliceL response 0 6 = [0x40, 0, 0, 0, 0, 0] then
    if byteAt response 21 = 0x05 then
      send_request_serial_and_audio_if_possible { st with auth_ok := true }
    else (st, [])
  else if response.length = 80 ∧ sliceL response 0 6 = [0x50, 0, 0, 0, 0, 0] then
    send_request_serial_and_audio_if_possible
      { st with a8_reply_id := sliceL response 32 48, got_a8_reply_id := true }
  else if response.length = 144 ∧ sliceL response 0 6 = [0x90, 0, 0, 0, 0, 0] ∧
      byteAt response 96 = 1 then
    ({ st with serial_and_audio_stream_opened := true }, [])
  else (st, [])

/-- Process a sequence of inbound control frames through
`_handle_read`, accumulating every frame the control session sends. -/
def run_reads (st : CtrlState) (rs : List (List Nat)) : CtrlState × List (List Nat) :=
  rs.foldl (fun acc r =>
    let res := handle_read acc.1 r
    (res.1, acc.2 ++ res.2)) (st, [])

/-- Outcome of the login part of `ControlStream.init`: either the
session proceeds, or `raise Exception("invalid username/password")` —
the distinct bad-credentials failure.  Both carry the state reached
and the frames sent on the control endpoint. -/
inductive InitResult where
  | ok (st : CtrlState) (sent : List (List Nat))
  | badCredentials (st : CtrlState) (sent : List (List Nat))

/-- Whether the init outcome is the bad-credentials failure. -/
def InitResult.isBadCredentials : InitResult → Bool
  | .badCredentials _ _ => true
  | .ok _ _ => false

/-- Whether the init outcome is success. -/
def InitResult.isOk : InitResult → Bool
  | .ok _ _ => true
  | .badCredentials _ _ => false

/-- The control-session state reached by init. -/
def InitResult.state : InitResult → CtrlState
  | .ok st _ => st
  | .badCredentials st _ => st

/-- The frames sent on the control endpoint during init. -/
def InitResult.sent : InitResult → List (List Nat)
  | .ok _ fs => fs
  | .badCredentials _ fs => fs

/-- The post-handshake part of `ControlStream.init` (lines 557..580 of
the source), as a function of the 96-byte login answer `response`:
reset the control pkt0 handler, send the login frame, then — if
`response[48:52]` is `ff ff ff fe` — fail with the bad-credentials
exception; otherwise start the pkt7 prober (`start_periodic_send` sets
`running`), record `auth_id := response[26:32]`, and send the two auth
frames with magics 0x02 and 0x05. -/
def control_init (st0 : CtrlState) (authStartId : Nat) (response : List Nat) :
    InitResult :=
  let st := { st0 with pkt0 := pkt0Init }
  let r1 := send_pkt_login st authStartId
  let st := r1.1
  if sliceL response 48 52 = [0xff, 0xff, 0xff, 0xfe] then
    .badCredentials st [r1.2]
  else
    let st := { st with pkt7 := { st.pkt7 with running := true } }
    let st := { st with auth_id := sliceL response 26 32, got_auth_id := true }
    let r2 := send_pkt_auth st 0x02
    let st := r2.1
    let r3 := send_pkt_auth st 0x05
    .ok r3.1 [r1.2, r2.2, r3.2]

/-- The frames `ControlStream.deinit` sends on the control endpoint:
the deauth frame (auth magic 0x01) only when both `got_auth_id` and
the endpoint's `got_remote_sid` hold, followed by whatever
`send_disconnect` emits. -/
def control_deinit (st : CtrlState) : List (List Nat) :=
  (if st.got_auth_id && st.ep.got_remote_sid then [(send_pkt_auth st 0x01).2] else [])
    ++ send_disconnect st.ep

/-- State of `SerialStream`: its endpoint, its pkt0 handler and the
wrapper-local CI-V send seq (starts at 1). -/
structure SerialState where
  ep : Endpoint
  pkt0 : Pkt0State
  send_seq : Nat

/-- The civ-envelope built by `SerialStream.send_civ_command` before
tracking, in source order: byte 0 = 0x15 + N; session IDs BE at 8 and
12; 0xC1 at 16; N at 17; the wrapper send-seq LE16 at 19; the CI-V
payload from 21. -/
def mkCivPkt (ss : SerialState) (command : List Nat) : List Nat :=
  [0x15 + command.length] ++ List.replicate 7 0 ++
    be32 ss.ep.local_sid ++ be32 ss.ep.remote_sid ++
    [0xc1] ++ [command.length] ++ [0] ++
    le16 ss.send_seq ++ command

/-- `SerialStream.send_civ_command`: wrap the CI-V bytes in a
civ-envelope, send it as a tracked type-0 packet (which stamps the
outer seq at offset 6 and stores the frame in the retransmit buffer),
and bump the wrapper seq mod 2^16. -/
def send_civ_command (ss : SerialState) (command : List Nat) : SerialState × List Nat :=
  let res := send_tracked_packet ss.pkt0 (mkCivPkt ss command)
  ({ ss with pkt0 := res.1, send_seq := (ss.send_seq + 1) % 65536 }, res.2)

/-- `MAX_RETRANSMIT_REQUEST_PACKET_COUNT` from the source constants. -/
def MAX_RETRANSMIT_REQUEST_PACKET_COUNT : Nat := 10

/-- A sample connected endpoint. -/
def exEp : Endpoint := ⟨0x11111111, 0x22222222, true⟩

/-- A fresh control-session state right after the three handshakes,
with the default credentials of the CLI. -/
def exampleCtrl : CtrlState :=
  { ep := exEp
    pkt0 := pkt0Init
    pkt7 := pkt7Init
    username := "admin"
    password := "adminadmin"
    auth_inner_send_seq := 0
    auth_id := List.replicate 6 0
    got_auth_id := false
    auth_ok := false
    a8_reply_id := List.replicate 16 0
    got_a8_reply_id := false
    serial_and_audio_stream_opened := false }

/-- A 96-byte login answer with `auth_id = 01 02 03 04 05 06` at
26..32 and no bad-credentials marker. -/
def goodLoginResp : List Nat :=
  [0x60, 0, 0, 0, 0, 0, 0x01, 0] ++ List.replicate 18 0 ++
    [1, 2, 3, 4, 5, 6] ++ List.replicate 64 0

/-- A 96-byte login answer carrying `ff ff ff fe` at 48..52. -/
def badLoginResp : List Nat :=
  [0x60, 0, 0, 0, 0, 0, 0x01, 0] ++ List.replicate 40 0 ++
    [0xff, 0xff, 0xff, 0xfe] ++ List.replicate 44 0

/-- The control-session state reached by a successful
`control_init` on the sample state. -/
def initOkState : CtrlState :=
  (control_init exampleCtrl 0xABCD goodLoginResp).state

/-- A 64-byte auth answer with magic 0x05 at offset 21. -/
def authAns05 : List Nat :=
  [0x40, 0, 0, 0, 0, 0] ++ List.replicate 15 0 ++ [0x05] ++ List.replicate 42 0

/-- An 80-byte a8 answer (reply id at 32..48 all zero here). -/
def a8Ans : List Nat :=
  [0x50, 0, 0, 0, 0, 0] ++ List.replicate 74 0

/-- A sample inbound 21-byte pkt7 request: seq 3 at offset 6, request
flag 0x00 at 16, reply-id `09 09 09 06` at 17..21. -/
def pkt7ReqSample : List Nat :=
  [0x15, 0, 0, 0, 0x07, 0] ++ [3, 0] ++ List.replicate 8 0 ++ [0x00] ++ [9, 9, 9, 6]

/-- A sample 16-byte single-seq retransmit request asking for seq 5. -/
def reqSeq5 : List Nat :=
  [0x10, 0, 0, 0, 0x01, 0] ++ [5, 0] ++ List.replicate 8 0

/-- A control state in which `auth_ok` already holds but the a8 answer
has not arrived yet. -/
def authOkCtrl : CtrlState := { exampleCtrl with auth_ok := true }

/-- A sample serial wrapper state. -/
def exSerial : SerialState := ⟨exEp, pkt0Init, 1⟩

/-- The CI-V read-frequency command from scenario S5 of the spec. -/
def exCiv : List Nat := [0xFE, 0xFE, 0xA2, 0xE0, 0x25, 0xFD]

/-- A pkt7 handler state whose periodic sender has been started. -/
def runningPkt7 : Pkt7State := ⟨2, 0x8304, true⟩

theorem byteAt_ge (l : List Nat) (n : Nat) (h : l.length ≤ n) : byteAt l n = 0 := by
  induction l generalizing n with
  | nil => rfl
  | cons b t ih =>
      cases n with
      | zero => simp at h
      | succ m => exact ih m (by simpa using h)

theorem byteAt_eq_get? (l : List Nat) (n : Nat) : byteAt l n = (l.get? n).getD 0 := by
  induction l generalizing n with
  | nil => cases n <;> rfl
  | cons b t ih => cases n with
      | zero => rfl
      | succ m => simpa using ih m

theorem byteAt_append (l₁ l₂ : List Nat) (n : Nat) :
    byteAt (l₁ ++ l₂) n =
      if n < l₁.length then byteAt l₁ n else byteAt l₂ (n - l₁.length) := by
  induction l₁ generalizing n with
  | nil => simp [byteAt]
  | cons b t ih =>
      cases n with
      | zero => simp [byteAt]
      | succ m => simp [byteAt, ih m, Nat.succ_lt_succ_iff]

theorem byteAt_take (l : List Nat) (m n : Nat) (h : n < m) :
    byteAt (l.take m) n = byteAt l n := by
  induction l generalizing m n with
  | nil => simp
  | cons b t ih =>
      cases m with
      | zero => omega
      | succ k =>
          cases n with
          | zero => rfl
          | succ j => simpa [byteAt] using ih k j (by omega)

theorem byteAt_drop (l : List Nat) (m n : Nat) :
    byteAt (l.drop m) n = byteAt l (m + n) := by
  induction l generalizing m n with
  | nil => simp [byteAt]
  | cons b t ih =>
      cases m with
      | zero => simp
      | succ k => simpa [byteAt, Nat.succ_add] using ih k n

theorem byteAt_mem (l : List Nat) (n : Nat) (h : n < l.length) : byteAt l n ∈ l := by
  induction l generalizing n with
  | nil => simp at h
  | cons b t ih =>
      cases n with
      | zero => exact List.mem_cons_self b t
      | succ m => exact List.mem_cons_of_mem b (ih m (by simpa using h))

theorem length_sliceL (l : List Nat) (a b : Nat) :
    (sliceL l a b).length = min (b - a) (l.length - a) := by
  simp [sliceL]

theorem byteAt_sliceL (l : List Nat) (a b j : Nat) (h : j < b - a) :
    byteAt (sliceL l a b) j = byteAt l (a + j) := by
  rw [sliceL, byteAt_take _ _ _ h, byteAt_drop]

theorem length_setSlice (l : List Nat) (off : Nat) (r : List Nat)
    (h : off + r.length ≤ l.length) : (setSlice l off r).length = l.length := by
  simp [setSlice]
  omega

theorem byteAt_setSlice_right (l : List Nat) (off : Nat) (r : List Nat) (n : Nat)
    (h1 : off + r.length ≤ n) (h2 : off ≤ l.length) :
    byteAt (setSlice l off r) n = byteAt l n := by
  have hlen : (l.take off).length = off := by
    rw [List.length_take]
    omega
  have hlen2 : (l.take off ++ r).length = off + r.length := by
    rw [List.length_append, hlen]
  rw [setSlice, byteAt_append, hlen2, if_neg (by omega), byteAt_drop]
  congr 1
  omega

theorem eq_of_byteAt (l r : List Nat) (hl : l.length = r.length)
    (h : ∀ j, j < l.length → byteAt l j = byteAt r j) : l = r := by
  induction l generalizing r with
  | nil => cases r with
      | nil => rfl
      | cons b t => simp at hl
  | cons b t ih =>
      cases r with
      | nil => simp at hl
      | cons c u =>
          have h0 : b = c := h 0 (by simp)
          have ht : t = u := by
            refine ih u (by simpa using hl) ?_
            intro j hj
            exact h (j + 1) (by simpa using Nat.succ_lt_succ hj)
          rw [h0, ht]

theorem byteAt_map_range (f : Nat → Nat) (n i : Nat) (h : i < n) :
    byteAt ((List.range n).map f) i = f i := by
  induction n with
  | zero => omega
  | succ m ih =>
      rw [List.range_succ, List.map_append, byteAt_append]
      by_cases hi : i < m
      · rw [if_pos (by simpa using hi), ih hi]
      · have : i = m := by omega
        subst this
        rw [if_neg (by simp), List.length_map, List.length_range, Nat.sub_self]
        rfl

theorem passcode_length (s : String) : (passcode s).length = 16 := by
  simp [passcode]

theorem byteAt_passcode_lt (s : String) (i : Nat) (hi : i < 16) :
    byteAt (passcode s) i =
      match s.data.get? i with
      | some c => (PASSCODE_SEQUENCE (pcAdjust (c.toNat + i))).getD 0
      | none => 0 := by
  rw [passcode, byteAt_map_range _ 16 i hi]

theorem get?_none_of_len_le {α : Type} (l : List α) (n : Nat) (h : l.length ≤ n) :
    l.get? n = none := by
  induction l generalizing n with
  | nil => rfl
  | cons b t ih =>
      cases n with
      | zero => simp at h
      | succ m => simpa using ih m (by simpa using h)

theorem setSlice_le16_ne_nil (l : List Nat) (off v : Nat) :
    setSlice l off (le16 v) ≠ [] := by
  intro h
  rw [setSlice, le16] at h
  simp [List.append_eq_nil] at h

theorem runTracked_inv (ds : List (List Nat)) (st : Pkt0State)
    (h1 : st.send_seq < 65536) (h2 : ∀ k ∈ st.tx_seq_buf.keys, k < 65536) :
    (runTracked st ds).send_seq < 65536 ∧
      ∀ k ∈ (runTracked st ds).tx_seq_buf.keys, k < 65536 := by
  induction ds generalizing st with
  | nil => exact ⟨h1, h2⟩
  | cons d ds ih =>
      refine ih _ (Nat.mod_lt _ (by omega)) ?_
      intro k hk
      simp only [send_tracked_packet, AList.keys_insert, List.mem_cons] at hk
      rcases hk with hk | hk
      · omega
      · exact h2 k (List.mem_of_mem_erase hk)

theorem runTracked_lookup_ne_nil (ds : List (List Nat)) (st : Pkt0State)
    (h : ∀ k d, st.tx_seq_buf.lookup k = some d → d ≠ []) :
    ∀ k d, (runTracked st ds).tx_seq_buf.lookup k = some d → d ≠ [] := by
  induction ds generalizing st with
  | nil => exact h
  | cons x ds ih =>
      refine ih _ ?_
      intro k d hl
      simp only [send_tracked_packet] at hl
      by_cases hk : k = st.send_seq
      · subst hk
        rw [AList.lookup_insert] at hl
        cases hl
        exact setSlice_le16_ne_nil x 6 st.send_seq
      · rw [AList.lookup_insert_ne hk] at hl
        exact h k d hl

theorem pkt0Init_lookup (k : Nat) : pkt0Init.tx_seq_buf.lookup k = none :=
  AList.lookup_empty k

theorem take_of_len_le {α : Type} (l : List α) (n : Nat) (h : l.length ≤ n) :
    l.take n = l := by
  induction l generalizing n with
  | nil => simp
  | cons b t ih =>
      cases n with
      | zero => simp at h
      | succ m => simpa using ih m (by simpa using h)

theorem mkSerialAudioReq_length (st : CtrlState) (h6 : st.auth_id.length = 6)
    (h16 : st.a8_reply_id.length = 16) : (mkSerialAudioReq st).length = 144 := by
  simp [mkSerialAudioReq, le32, le16, be16, be32, passcode_length, h6, h16]

theorem mkLoginPkt_length (st : CtrlState) (asid : Nat) :
    (mkLoginPkt st asid).length = 128 := by
  simp [mkLoginPkt, le32, le16, be16, be32, passcode_length]

theorem send_disconnect_mem_length (ep : Endpoint) :
    ∀ f ∈ send_disconnect ep, f.length = 16 := by
  intro f hf
  simp only [send_disconnect] at hf
  by_cases h : ep.got_remote_sid = false
  · rw [if_pos h] at hf
    simp at hf
  · rw [if_neg h] at hf
    simp only [List.mem_cons, List.not_mem_nil, or_false] at hf
    rcases hf with rfl | rfl <;> rfl

theorem reqIfPossible_spec (st : CtrlState)
    (hne : (send_request_serial_and_audio_if_possible st).2 ≠ [])
    (h6 : st.auth_id.length = 6) (h16 : st.a8_reply_id.length = 16) :
    st.serial_and_audio_stream_opened = false ∧ st.auth_ok = true ∧
    st.got_a8_reply_id = true ∧
    (send_request_serial_and_audio_if_possible st).1.auth_ok = st.auth_ok ∧
    (send_request_serial_and_audio_if_possible st).1.got_a8_reply_id =
      st.got_a8_reply_id ∧
    (send_request_serial_and_audio_if_possible st).2.length = 1 ∧
    ((send_request_serial_and_audio_if_possible st).2.headD []).length = 144 := by
  by_cases hcond :
      (!st.serial_and_audio_stream_opened && st.auth_ok && st.got_a8_reply_id) = true
  · rw [send_request_serial_and_audio_if_possible, if_pos hcond]
    have hc' := hcond
    simp only [Bool.and_eq_true, Bool.not_eq_true'] at hc'
    refine ⟨hc'.1.1, hc'.1.2, hc'.2, rfl, rfl, rfl, ?_⟩
    show (setSlice (mkSerialAudioReq st) 6 (le16 st.pkt0.send_seq)).length = 144
    rw [length_setSlice _ _ _ (by rw [mkSerialAudioReq_length st h6 h16, le16]; simp),
      mkSerialAudioReq_length st h6 h16]
  · rw [send_request_serial_and_audio_if_possible, if_neg hcond] at hne
    exact absurd rfl hne

/-- C1 (code bug): on a connected endpoint (`got_remote_sid` true),
`send_disconnect` sends twice — but the frame's bytes 4..6 are
`00 00`, not the pkt5 type `05 00`: the `"<IHHH"` format string packs
the 0x05 at offset 8, where `pack_into(">II", pkt, 8, ...)` then
overwrites it with the session IDs.  The session IDs do sit big-endian
at offsets 8 and 12, and an endpoint without `got_remote_sid` sends
nothing. -/
theorem c1_disconnect_frame_eval :
    send_disconnect exEp =
      [[0x10, 0, 0, 0, 0, 0, 0, 0, 0x11, 0x11, 0x11, 0x11, 0x22, 0x22, 0x22, 0x22],
       [0x10, 0, 0, 0, 0, 0, 0, 0, 0x11, 0x11, 0x11, 0x11, 0x22, 0x22, 0x22, 0x22]] ∧
    ¬ sliceL ((send_disconnect exEp).headD []) 0 6 = [0x10, 0, 0, 0, 0x05, 0] ∧
    sliceL ((send_disconnect exEp).headD []) 8 12 = be32 0x11111111 ∧
    sliceL ((send_disconnect exEp).headD []) 12 16 = be32 0x22222222 ∧
    send_disconnect ⟨0x11111111, 0x22222222, false⟩ = [] := by decide

/-- C3: for every string `s`, `passcode s` has exactly 16 bytes; for
`i < min (len s) 16` byte `i` is the `PASSCODE_SEQUENCE` entry (default
0) for the adjusted code `ord (s i) + i`, folded to `32 + p % 127` when
`p > 126`; and every byte at or past `min (len s) 16` is zero. -/
theorem c3_passcode_spec (s : String) :
    (passcode s).length = 16 ∧
    (∀ i c, s.data.get? i = some c → i < 16 →
      byteAt (passcode s) i = (PASSCODE_SEQUENCE (pcAdjust (c.toNat + i))).getD 0) ∧
    (∀ i, min s.length 16 ≤ i → byteAt (passcode s) i = 0) := by
  refine ⟨passcode_length s, ?_, ?_⟩
  · intro i c hc hi
    rw [byteAt_passcode_lt s i hi, hc]
  · intro i hi
    by_cases h16 : i < 16
    · have hdl : s.data.length = s.length := rfl
      have hlen : s.data.length ≤ i := by omega
      rw [byteAt_passcode_lt s i h16, get?_none_of_len_le s.data i hlen]
    · exact byteAt_ge _ _ (by rw [passcode_length]; omega)

/-- C3 witness: the theorem instantiated at `s = "ab"`. -/
theorem c3_passcode_spec_witness :
    "ab".data.get? 0 = some 'a' ∧ (0 : Nat) < 16 ∧
    byteAt (passcode "ab") 0 = (PASSCODE_SEQUENCE (pcAdjust ('a'.toNat + 0))).getD 0 ∧
    min "ab".length 16 ≤ 2 ∧ byteAt (passcode "ab") 2 = 0 :=
  ⟨by decide, by decide,
    (c3_passcode_spec "ab").2.1 0 'a' (by decide) (by decide),
    by decide, (c3_passcode_spec "ab").2.2 2 (by decide)⟩

/-- C10: whenever the adjusted code of character `i` is not a key of
`PASSCODE_SEQUENCE` (below 32, or a folded value still above 126), the
output byte is 0, and the function still delivers its 16 bytes — the
`dict.get(p, 0)` default never fails. -/
theorem c10_passcode_missing_key (s : String) (i : Nat) (c : Char)
    (hc : s.data.get? i = some c) (hi : i < 16)
    (hnone : PASSCODE_SEQUENCE (pcAdjust (c.toNat + i)) = none) :
    byteAt (passcode s) i = 0 ∧ (passcode s).length = 16 := by
  constructor
  · rw [byteAt_passcode_lt s i hi, hc]
    show (PASSCODE_SEQUENCE (pcAdjust (c.toNat + i))).getD 0 = 0
    rw [hnone]
    rfl
  · exact passcode_length s

/-- C10 witness: `'Þ'` (code point 222) folds to 127, which is not a
table key, so the first passcode byte of `"Þ"` is 0. -/
theorem c10_passcode_missing_key_witness :
    "Þ".data.get? 0 = some 'Þ' ∧ (0 : Nat) < 16 ∧
    PASSCODE_SEQUENCE (pcAdjust ('Þ'.toNat + 0)) = none ∧
    byteAt (passcode "Þ") 0 = 0 :=
  ⟨by decide, by decide, by decide,
    (c10_passcode_missing_key "Þ" 0 'Þ' (by decide) (by decide) (by decide)).1⟩

/-- C7 (counterexample): a well-formed inbound pkt7 request is NOT
answered when the handler has not been started: `Pkt7Handler.handle`
replies only when `self.running` is set, and `running` is false in the
initial handler state. -/
theorem c7_request_unanswered_when_not_running :
    pkt7_is pkt7ReqSample = true ∧ byteAt pkt7ReqSample 16 = 0 ∧
    pkt7_handle pkt7Init exEp pkt7ReqSample = [] := by decide

/-- C7 (amended): while the handler is running, every inbound pkt7
frame with 0x00 at offset 16 is answered immediately with a single
pkt7 frame that has 0x01 at offset 16, echoes bytes 17..21, and
carries the received sequence at offset 6. -/
theorem c7_reply_spec (st : Pkt7State) (ep : Endpoint) (data : List Nat)
    (hrun : st.running = true) (hp : pkt7_is data = true)
    (h16 : byteAt data 16 = 0) (hbytes : ∀ b ∈ data, b < 256) :
    pkt7_handle st ep data = [mkPkt7Reply ep (sliceL data 17 21) (getLE16 data 6)] ∧
    (mkPkt7Reply ep (sliceL data 17 21) (getLE16 data 6)).length = 21 ∧
    byteAt (mkPkt7Reply ep (sliceL data 17 21) (getLE16 data 6)) 16 = 1 ∧
    sliceL (mkPkt7Reply ep (sliceL data 17 21) (getLE16 data 6)) 17 21 =
      sliceL data 17 21 ∧
    getLE16 (mkPkt7Reply ep (sliceL data 17 21) (getLE16 data 6)) 6 =
      getLE16 data 6 := by
  have hlen : data.length = 21 := by
    simp [pkt7_is] at hp
    exact hp.1
  have hslen : (sliceL data 17 21).length = 4 := by
    rw [length_sliceL, hlen]
    omega
  have h6 : byteAt data 6 < 256 := hbytes _ (byteAt_mem data 6 (by omega))
  have h7 : byteAt data (6 + 1) < 256 := hbytes _ (byteAt_mem data (6 + 1) (by omega))
  refine ⟨by simp [pkt7_handle, h16, hrun], ?_, rfl, ?_, ?_⟩
  · simp [mkPkt7Reply, le16, be32, hslen]
  · show (sliceL data 17 21).take 4 = sliceL data 17 21
    exact take_of_len_le _ 4 (by omega)
  · show getLE16 data 6 % 256 + 256 * (getLE16 data 6 / 256 % 256) = getLE16 data 6
    rw [getLE16]
    omega

/-- C7 witness: the amended theorem applied to a running handler and
the sample request. -/
theorem c7_reply_spec_witness :
    runningPkt7.running = true ∧ pkt7_is pkt7ReqSample = true ∧
    byteAt pkt7ReqSample 16 = 0 ∧
    pkt7_handle runningPkt7 exEp pkt7ReqSample =
      [mkPkt7Reply exEp (sliceL pkt7ReqSample 17 21) (getLE16 pkt7ReqSample 6)] :=
  ⟨rfl, by decide, by decide,
    (c7_reply_spec runningPkt7 exEp pkt7ReqSample rfl (by decide) (by decide)
      (by decide)).1⟩

/-- C4: in any reachable type-0 handler state, a single-seq retransmit
request for sequence S is served from the buffer — the exact stored
bytes resent twice — when an entry for S exists, and otherwise by two
untracked 16-byte idle frames carrying S little-endian at offset 6. -/
theorem c4_retransmit_replay (ds : List (List Nat)) (ep : Endpoint) (data : List Nat)
    (hL : 16 ≤ data.length)
    (hP : sliceL data 0 6 = [0x10, 0, 0, 0, 0x01, 0]) :
    (∀ d, (runTracked pkt0Init ds).tx_seq_buf.lookup (getLE16 data 6) = some d →
      pkt0_handle (runTracked pkt0Init ds) ep data = [d, d]) ∧
    ((runTracked pkt0Init ds).tx_seq_buf.lookup (getLE16 data 6) = none →
      pkt0_handle (runTracked pkt0Init ds) ep data =
        [mkIdlePkt ep false (getLE16 data 6), mkIdlePkt ep false (getLE16 data 6)] ∧
      (mkIdlePkt ep false (getLE16 data 6)).length = 16 ∧
      sliceL (mkIdlePkt ep false (getLE16 data 6)) 0 6 = [0x10, 0, 0, 0, 0, 0] ∧
      sliceL (mkIdlePkt ep false (getLE16 data 6)) 6 8 = le16 (getLE16 data 6)) := by
  have hnl : ¬ data.length < 16 := by omega
  constructor
  · intro d hd
    have hdne : d ≠ [] := by
      refine runTracked_lookup_ne_nil ds pkt0Init ?_ _ d hd
      intro k e he
      rw [pkt0Init_lookup] at he
      exact Option.noConfusion he
    rw [pkt0_handle, if_neg hnl, if_pos hP, hd]
    simp [hdne]
  · intro hnone
    refine ⟨?_, rfl, rfl, rfl⟩
    rw [pkt0_handle, if_neg hnl, if_pos hP, hnone]

/-- C4 witness: a request for seq 5 against the fresh (empty) buffer
draws the two idle frames. -/
theorem c4_retransmit_replay_witness :
    16 ≤ reqSeq5.length ∧ sliceL reqSeq5 0 6 = [0x10, 0, 0, 0, 0x01, 0] ∧
    pkt0_handle (runTracked pkt0Init []) exEp reqSeq5 =
      [mkIdlePkt exEp false 5, mkIdlePkt exEp false 5] :=
  ⟨by decide, by decide,
    ((c4_retransmit_replay [] exEp reqSeq5 (by decide) (by decide)).2 (by decide)).1⟩

/-- C8: `send_civ_command` on a CI-V byte string of length N in
[1, 232] emits one frame of length 21 + N with first byte 0x15 + N,
the serial endpoint's session IDs big-endian at 8 and 12, 0xC1 at 16,
N at 17, the wrapper send-seq little-endian at 19..21 and the command
verbatim from 21; the frame goes out tracked — the outer pkt0 seq is
written at offset 6 and the exact frame is stored in the retransmit
buffer under that seq. -/
theorem c8_civ_envelope (ss : SerialState) (command : List Nat)
    (h1 : 1 ≤ command.length) (h2 : command.length ≤ 232) :
    (send_civ_command ss command).2.length = 21 + command.length ∧
    byteAt (send_civ_command ss command).2 0 = 0x15 + command.length ∧
    sliceL (send_civ_command ss command).2 8 12 = be32 ss.ep.local_sid ∧
    sliceL (send_civ_command ss command).2 12 16 = be32 ss.ep.remote_sid ∧
    byteAt (send_civ_command ss command).2 16 = 0xc1 ∧
    byteAt (send_civ_command ss command).2 17 = command.length ∧
    sliceL (send_civ_command ss command).2 19 21 = le16 ss.send_seq ∧
    (send_civ_command ss command).2.drop 21 = command ∧
    sliceL (send_civ_command ss command).2 6 8 = le16 ss.pkt0.send_seq ∧
    (send_civ_command ss command).1.pkt0.tx_seq_buf.lookup ss.pkt0.send_seq =
      some (send_civ_command ss command).2 := by
  have hm : (mkCivPkt ss command).length = 21 + command.length := by
    simp [mkCivPkt, le16, be32]
    omega
  refine ⟨?_, rfl, rfl, rfl, rfl, rfl, rfl, rfl, rfl, ?_⟩
  · show (setSlice (mkCivPkt ss command) 6 (le16 ss.pkt0.send_seq)).length =
      21 + command.length
    rw [length_setSlice _ _ _ (by rw [hm, le16]; simp; omega), hm]
  · simp [send_civ_command, send_tracked_packet, AList.lookup_insert]

/-- C8 witness: the theorem applied to the sample wrapper state and
the S5 read-frequency CI-V command. -/
theorem c8_civ_envelope_witness :
    1 ≤ exCiv.length ∧ exCiv.length ≤ 232 ∧
    (send_civ_command exSerial exCiv).2.length = 21 + exCiv.length ∧
    byteAt (send_civ_command exSerial exCiv).2 16 = 0xc1 :=
  ⟨by decide, by decide,
    (c8_civ_envelope exSerial exCiv (by decide) (by decide)).1,
    (c8_civ_envelope exSerial exCiv (by decide) (by decide)).2.2.2.2.1⟩

/-- C2 (counterexample): the state reached by a successful
`control_init` is reachable with no auth acknowledgement processed at
all — `auth_ok` is still false — yet its pkt7 prober is already
running, and the very next timer tick emits a pkt7 request
(offset 16 = 0).  The prober is started right after the login answer,
not after the auth-0x05 acknowledgement. -/
theorem c2_pkt7_request_before_auth_ack :
    initOkState.auth_ok = false ∧
    initOkState.pkt7.running = true ∧
    (pkt7_tick initOkState.pkt7 initOkState.ep 0).2.length = 1 ∧
    pkt7_is ((pkt7_tick initOkState.pkt7 initOkState.ep 0).2.headD []) = true ∧
    byteAt ((pkt7_tick initOkState.pkt7 initOkState.ep 0).2.headD []) 16 = 0 := by
  decide

/-- C2 (amended): the pkt7 prober is gated on the accepted login
answer, not on the auth-0x05 acknowledgement: a fresh handler is not
running and then a tick emits nothing; a successful `control_init`
leaves the prober running; and every tick of a running prober emits
exactly one pkt7 request (one per `PKT7_SEND_INTERVAL`). -/
theorem c2_pkt7_gating (st0 : CtrlState) (asid : Nat) (resp : List Nat)
    (p : Pkt7State) (ep : Endpoint) (r : Nat) :
    pkt7Init.running = false ∧
    (p.running = false → pkt7_tick p ep r = (p, [])) ∧
    ((control_init st0 asid resp).isOk = true →
      (control_init st0 asid resp).state.pkt7.running = true) ∧
    (p.running = true →
      (pkt7_tick p ep r).2.length = 1 ∧
      pkt7_is ((pkt7_tick p ep r).2.headD []) = true ∧
      byteAt ((pkt7_tick p ep r).2.headD []) 16 = 0) := by
  refine ⟨rfl, ?_, ?_, ?_⟩
  · intro h
    simp [pkt7_tick, h]
  · intro hok
    by_cases hbad : sliceL resp 48 52 = [0xff, 0xff, 0xff, 0xfe]
    · simp only [control_init, if_pos hbad, InitResult.isOk] at hok
      exact Bool.noConfusion hok
    · simp only [control_init, if_neg hbad, InitResult.state, send_pkt_login,
        send_pkt_auth]
  · intro h
    have htick : (pkt7_tick p ep r).2 = [(pkt7_send p ep r).2] := by
      simp [pkt7_tick, h]
    rw [htick]
    exact ⟨rfl, rfl, rfl⟩

/-- C2 witness: the amended theorem at a stopped and at a running
handler. -/
theorem c2_pkt7_gating_witness :
    pkt7_tick pkt7Init exEp 0 = (pkt7Init, []) ∧
    (pkt7_tick runningPkt7 exEp 0).2.length = 1 :=
  ⟨(c2_pkt7_gating exampleCtrl 0 [] pkt7Init exEp 0).2.1 rfl,
    ((c2_pkt7_gating exampleCtrl 0 [] runningPkt7 exEp 0).2.2.2 rfl).1⟩

/-- C5 (counterexample): after a successful init, the inbound sequence
auth-answer(0x05), a8-answer, duplicate auth-answer(0x05) makes the
control session emit the 144-byte provisioning request twice — the
guard only checks `serial_and_audio_stream_opened`, which stays false
until the provisioning answer arrives, so "exactly once" fails. -/
theorem c5_request_emitted_twice :
    (run_reads initOkState [authAns05, a8Ans, authAns05]).2.countP
      (fun f => f.length == 144) = 2 ∧
    (run_reads initOkState [authAns05, a8Ans]).2.countP
      (fun f => f.length == 144) = 1 := by decide

/-- C5 (amended): whenever `_handle_read` emits anything, it emits
exactly one 144-byte provisioning request, and only in a state where
the streams are not yet opened and — after processing the triggering
frame — both `auth_ok` and `got_a8_reply_id` hold.  (Duplicate trigger
frames before the provisioning answer re-emit the request, so the
emission is not unique per session.) -/
theorem c5_request_gating (st : CtrlState) (resp : List Nat)
    (h6 : st.auth_id.length = 6) (h16 : st.a8_reply_id.length = 16)
    (hne : (handle_read st resp).2 ≠ []) :
    st.serial_and_audio_stream_opened = false ∧
    (handle_read st resp).1.auth_ok = true ∧
    (handle_read st resp).1.got_a8_reply_id = true ∧
    (handle_read st resp).2.length = 1 ∧
    ((handle_read st resp).2.headD []).length = 144 := by
  by_cases hA : resp.length = 64 ∧ sliceL resp 0 6 = [0x40, 0, 0, 0, 0, 0]
  · rw [handle_read, if_pos hA] at hne ⊢
    by_cases h21 : byteAt resp 21 = 0x05
    · rw [if_pos h21] at hne ⊢
      have hs := reqIfPossible_spec _ hne h6 h16
      exact ⟨hs.1, hs.2.2.2.1.trans hs.2.1, hs.2.2.2.2.1.trans hs.2.2.1,
        hs.2.2.2.2.2.1, hs.2.2.2.2.2.2⟩
    · rw [if_neg h21] at hne
      exact absurd rfl hne
  · rw [handle_read, if_neg hA] at hne ⊢
    by_cases hB : resp.length = 80 ∧ sliceL resp 0 6 = [0x50, 0, 0, 0, 0, 0]
    · rw [if_pos hB] at hne ⊢
      have h16b : (sliceL resp 32 48).length = 16 := by
        rw [length_sliceL, hB.1]
        decide
      have hs := reqIfPossible_spec _ hne h6 h16b
      exact ⟨hs.1, hs.2.2.2.1.trans hs.2.1, hs.2.2.2.2.1.trans hs.2.2.1,
        hs.2.2.2.2.2.1, hs.2.2.2.2.2.2⟩
    · rw [if_neg hB] at hne ⊢
      by_cases hC : resp.length = 144 ∧ sliceL resp 0 6 = [0x90, 0, 0, 0, 0, 0] ∧
        byteAt resp 96 = 1
      · rw [if_pos hC] at hne
        exact absurd rfl hne
      · rw [if_neg hC] at hne
        exact absurd rfl hne

/-- C5 witness: the amended theorem at a state where `auth_ok` already
holds and the a8 answer arrives. -/
theorem c5_request_gating_witness :
    authOkCtrl.auth_id.length = 6 ∧ authOkCtrl.a8_reply_id.length = 16 ∧
    (handle_read authOkCtrl a8Ans).2 ≠ [] ∧
    (handle_read authOkCtrl a8Ans).2.length = 1 ∧
    ((handle_read authOkCtrl a8Ans).2.headD []).length = 144 :=
  ⟨by decide, by decide, by decide,
    (c5_request_gating authOkCtrl a8Ans (by decide) (by decide) (by decide)).2.2.2.1,
    (c5_request_gating authOkCtrl a8Ans (by decide) (by decide) (by decide)).2.2.2.2⟩

/-- C6: when the 96-byte login answer carries `ff ff ff fe` at 48..52,
`control_init` fails with the distinct bad-credentials outcome; the
only frame it has sent is the 128-byte login frame — never a 64-byte
auth frame with magic 0x02 or 0x05 — and the subsequent teardown sends
no auth frame either, because `got_auth_id` was never set. -/
theorem c6_bad_credentials (st : CtrlState) (asid : Nat) (resp : List Nat)
    (hA : st.got_auth_id = false)
    (hresp : sliceL resp 48 52 = [0xff, 0xff, 0xff, 0xfe]) :
    (control_init st asid resp).isBadCredentials = true ∧
    (∀ f ∈ (control_init st asid resp).sent, f.length = 128) ∧
    (∀ f ∈ (control_init st asid resp).sent,
      ¬(f.length = 64 ∧ (byteAt f 21 = 0x02 ∨ byteAt f 21 = 0x05))) ∧
    (∀ f ∈ control_deinit (control_init st asid resp).state,
      ¬(f.length = 64 ∧ (byteAt f 21 = 0x02 ∨ byteAt f 21 = 0x05))) := by
  have hsent : ∀ f ∈ (control_init st asid resp).sent, f.length = 128 := by
    intro f hf
    simp only [control_init, if_pos hresp, InitResult.sent, send_pkt_login,
      List.mem_singleton] at hf
    subst hf
    show (setSlice (mkLoginPkt { st with pkt0 := pkt0Init } asid) 6
      (le16 pkt0Init.send_seq)).length = 128
    rw [length_setSlice _ _ _ (by rw [mkLoginPkt_length, le16]; simp),
      mkLoginPkt_length]
  have hgot : (control_init st asid resp).state.got_auth_id = false := by
    simp only [control_init, if_pos hresp, InitResult.state, send_pkt_login]
    exact hA
  refine ⟨by simp only [control_init, if_pos hresp, InitResult.isBadCredentials],
    hsent, ?_, ?_⟩
  · intro f hf hcontra
    have := hsent f hf
    omega
  · intro f hf hcontra
    simp only [control_deinit, hgot, Bool.false_and, if_neg (Bool.false_ne_true),
      List.nil_append] at hf
    have := send_disconnect_mem_length _ f hf
    omega

/-- C6 witness: the theorem at the sample fresh control state and a
login answer carrying the bad-credentials marker. -/
theorem c6_bad_credentials_witness :
    exampleCtrl.got_auth_id = false ∧
    sliceL badLoginResp 48 52 = [0xff, 0xff, 0xff, 0xfe] ∧
    (control_init exampleCtrl 0 badLoginResp).isBadCredentials = true :=
  ⟨by decide, by decide,
    (c6_bad_credentials exampleCtrl 0 badLoginResp (by decide) (by decide)).1⟩

/-- C9: in every reachable type-0 handler state the retransmit buffer
holds at most W = 65536 entries — every key is a 16-bit sequence
number, so once the send window wraps past 2^16 the new entry replaces
the oldest one under the same key instead of growing the dict — and
this cap W is at least `MAX_RETRANSMIT_REQUEST_PACKET_COUNT` = 10. -/
theorem c9_buffer_bounded (ds : List (List Nat)) :
    (runTracked pkt0Init ds).tx_seq_buf.entries.length ≤ 65536 ∧
    MAX_RETRANSMIT_REQUEST_PACKET_COUNT ≤ 65536 := by
  constructor
  · have hinv := (runTracked_inv ds pkt0Init (by decide) (by
      intro k hk
      simp [pkt0Init, AList.keys_empty] at hk)).2
    have hnd := AList.keys_nodup (runTracked pkt0Init ds).tx_seq_buf
    have hsub : (runTracked pkt0Init ds).tx_seq_buf.keys.toFinset ⊆
        Finset.range 65536 := by
      intro k hk
      rw [List.mem_toFinset] at hk
      exact Finset.mem_range.mpr (hinv k hk)
    have hcard := Finset.card_le_card hsub
    rw [List.toFinset_card_of_nodup hnd, Finset.card_range] at hcard
    have hkl : (runTracked pkt0Init ds).tx_seq_buf.keys.length =
        (runTracked pkt0Init ds).tx_seq_buf.entries.length := by
      simp [AList.keys, List.keys]
    omega
  · decide

end SM
